import Mathlib

/-!
Verification development for the scenario-outcome-analyzer repository.

The analyzer core (`src/scenario_analyzer.py`) is embedded shallowly:
probabilities and confidence scores become rationals, strings stay strings,
and the two effectful collaborators are abstracted as parameters:

* the OpenAI client is replaced by a value of type
  `Option (Option (List Outcome))` — `none` models a constructor without an
  api key (no client), `some none` models a client call whose request,
  parse, or `Outcome(**o)` construction raised (the `except` branch of
  `_ai_generate_outcomes`), and `some (some outs)` models a call whose JSON
  payload parsed into the outcome list `outs`;
* Python's order-nondeterministic `list(set(xs))` in
  `_generate_recommendations` becomes an explicit parameter `setList`
  constrained by `SetListValid` (it returns a duplicate-free list with
  exactly the members of its input).

The API server (`src/api_server.py`) stores job records in an insertion
ordered dict; the store is embedded as a `List JobRecord` with unique ids,
dict assignment as `storeSet`, and in-place record mutation as `storeUpdate`.
`datetime.now()` and `uuid.uuid4()` become explicit parameters.
-/

/-- Lower-case every character of a string; models Python `str.lower()` on
the ASCII range. -/
def lowerStr (s : String) : String := ⟨s.data.map Char.toLower⟩

/-- A regex word character (`\w` restricted to the ASCII range):
letters, digits and underscore. -/
def wordChar (c : Char) : Bool := c.isAlphanum || c == '_'

/-- True when the list is empty or starts with a non-word character;
models the right-hand word boundary `\b`. -/
def boundaryAt : List Char → Bool
  | [] => true
  | c :: _ => !wordChar c

/-- The keyword matches at the head of `s`, given whether the character just
before `s` was a word character. -/
def wordMatchHere (kw s : List Char) (prevIsWord : Bool) : Bool :=
  !prevIsWord && kw.isPrefixOf s && boundaryAt (s.drop kw.length)

/-- Scan `s` for a whole-word occurrence of `kw`; `prevIsWord` records
whether the previously consumed character was a word character. -/
def occursWordFrom (kw : List Char) : List Char → Bool → Bool
  | [], prevIsWord => wordMatchHere kw [] prevIsWord
  | c :: rest, prevIsWord =>
    wordMatchHere kw (c :: rest) prevIsWord || occursWordFrom kw rest (wordChar c)

/-- `kw` occurs as a whole word in `s`; models `re.search(r'\b kw \b', s)`
for a literal keyword. -/
def occursWord (kw s : String) : Bool := occursWordFrom kw.data s.data false

/-- Some keyword of the alternation occurs as a whole word in `s`; models
`re.search(r'\b(k1|k2|...)\b', s)`. -/
def occursAnyWord (kws : List String) (s : String) : Bool :=
  kws.any (fun kw => occursWord kw s)

/-- `kw.data` occurs as a contiguous substring of `s`; helper for
`containsSub`. -/
def containsSubChars (kw : List Char) : List Char → Bool
  | [] => kw.isEmpty
  | c :: rest => kw.isPrefixOf (c :: rest) || containsSubChars kw rest

/-- `kw` occurs as a contiguous substring of `s`; models Python
`kw in s` on strings. -/
def containsSub (kw s : String) : Bool := containsSubChars kw.data s.data

/-- One hypothesized result (`Outcome` dataclass,
src/scenario_analyzer.py lines 15-24). Probability and confidence are
embedded as rationals. -/
structure Outcome where
  description : String
  probability : ℚ
  impact_level : String
  risk_factors : List String
  opportunities : List String
  timeline : String
  confidence_score : ℚ
deriving DecidableEq

/-- Complete analysis of a scenario (`ScenarioAnalysis` dataclass,
src/scenario_analyzer.py lines 26-34). -/
structure ScenarioAnalysis where
  situation : String
  context_factors : List String
  outcomes : List Outcome
  key_variables : List String
  recommendations : List String
  analysis_timestamp : String
deriving DecidableEq

/-- The keyword-category part of `ScenarioAnalyzer._extract_context_factors`
(src/scenario_analyzer.py lines 113-125): the five `re.search`-guarded
appends, in source order. -/
def categoryFactors (situation : String) : List String :=
  let factors : List String := []
  let factors := if occursAnyWord ["business", "company", "startup"] (lowerStr situation)
    then factors ++ ["Business/Commercial context"] else factors
  let factors := if occursAnyWord ["market", "economy", "financial"] (lowerStr situation)
    then factors ++ ["Economic factors"] else factors
  let factors := if occursAnyWord ["team", "people", "employee"] (lowerStr situation)
    then factors ++ ["Human resources"] else factors
  let factors := if occursAnyWord ["technology", "tech", "digital"] (lowerStr situation)
    then factors ++ ["Technology factors"] else factors
  let factors := if occursAnyWord ["time", "deadline", "urgent"] (lowerStr situation)
    then factors ++ ["Time constraints"] else factors
  factors

/-- `ScenarioAnalyzer._extract_context_factors`
(src/scenario_analyzer.py lines 111-132).  The `context` mapping is
embedded as an association list in iteration order, with values already
rendered to strings as the f-string interpolation does. -/
def extract_context_factors (situation : String)
    (context : Option (List (String × String))) : List String :=
  let factors := categoryFactors situation
  let factors := match context with
    | some ctx => factors ++ ctx.map (fun kv => kv.1 ++ ": " ++ kv.2)
    | none => factors
  if factors.isEmpty then ["General situational context"] else factors

/-- Best case bucket of `_rule_based_outcomes`
(src/scenario_analyzer.py lines 185-193). -/
def optimalOutcome : Outcome :=
  ⟨"Optimal outcome - all factors align favorably", 0.25, "High",
   ["Overconfidence", "External disruptions"],
   ["Maximum benefit realization", "Positive momentum"],
   "Short to medium term", 0.7⟩

/-- Most likely bucket of `_rule_based_outcomes`
(src/scenario_analyzer.py lines 196-204). -/
def expectedOutcome : Outcome :=
  ⟨"Expected outcome - moderate success with some challenges", 0.45, "Medium",
   ["Resource constraints", "Execution challenges"],
   ["Learning opportunities", "Incremental progress"],
   "Medium term", 0.85⟩

/-- Challenging bucket of `_rule_based_outcomes`
(src/scenario_analyzer.py lines 207-215). -/
def challengingOutcome : Outcome :=
  ⟨"Difficult outcome - significant obstacles encountered", 0.25, "Medium",
   ["Major setbacks", "Resource depletion"],
   ["Resilience building", "Alternative paths"],
   "Extended timeline", 0.75⟩

/-- Worst case bucket of `_rule_based_outcomes`
(src/scenario_analyzer.py lines 218-226). -/
def adverseOutcome : Outcome :=
  ⟨"Adverse outcome - multiple failures compound", 0.05, "High",
   ["Complete failure", "Reputation damage"],
   ["Lessons learned", "Fresh start potential"],
   "Long term recovery", 0.6⟩

/-- `ScenarioAnalyzer._rule_based_outcomes`
(src/scenario_analyzer.py lines 179-228): the fixed four-bucket canonical
outcome set, appended in source order.  Both parameters are ignored by the
source as well; the function is total, so this strategy cannot fail. -/
def rule_based_outcomes (_situation : String) (_context_factors : List String) :
    List Outcome :=
  [optimalOutcome, expectedOutcome, challengingOutcome, adverseOutcome]

/-- `ScenarioAnalyzer._ai_generate_outcomes`
(src/scenario_analyzer.py lines 142-177).  `aiResult = none` models the
`except` branch (provider error, JSON parse error, or `Outcome(**o)`
raising); `aiResult = some outs` models a successfully parsed payload.
The source constructs `Outcome(**outcome)` with no range validation, so
whatever the payload carries is returned unchanged. -/
def ai_generate_outcomes (aiResult : Option (List Outcome))
    (situation : String) (context_factors : List String) : List Outcome :=
  match aiResult with
  | some outs => outs
  | none => rule_based_outcomes situation context_factors

/-- `ScenarioAnalyzer._generate_outcomes`
(src/scenario_analyzer.py lines 134-140): dispatch on client presence. -/
def generate_outcomes (client : Option (Option (List Outcome)))
    (situation : String) (context_factors : List String) : List Outcome :=
  match client with
  | some aiResult => ai_generate_outcomes aiResult situation context_factors
  | none => rule_based_outcomes situation context_factors

/-- The situation-keyword part of `ScenarioAnalyzer._identify_key_variables`
(src/scenario_analyzer.py lines 236-243): plain substring tests, in source
order. -/
def situationKeyVars (situation : String) : List String :=
  let vars : List String := []
  let vars := if containsSub "decision" (lowerStr situation)
    then vars ++ ["Decision quality and timing"] else vars
  let vars := if containsSub "resource" (lowerStr situation)
    then vars ++ ["Resource availability"] else vars
  let vars := if containsSub "market" (lowerStr situation)
    then vars ++ ["Market conditions"] else vars
  let vars := if containsSub "team" (lowerStr situation)
    then vars ++ ["Team performance and dynamics"] else vars
  vars

/-- The pooled-risk part of `ScenarioAnalyzer._identify_key_variables`
(src/scenario_analyzer.py lines 251-256): substring tests over the
lower-cased pooled risk factors, in source order. -/
def riskKeyVars (all_risks : List String) : List String :=
  let vars : List String := []
  let vars := if all_risks.any (fun risk => containsSub "resource" (lowerStr risk))
    then vars ++ ["Resource management"] else vars
  let vars := if all_risks.any (fun risk => containsSub "execution" (lowerStr risk))
    then vars ++ ["Execution capability"] else vars
  let vars := if all_risks.any (fun risk => containsSub "external" (lowerStr risk))
    then vars ++ ["External environment"] else vars
  vars

/-- `ScenarioAnalyzer._identify_key_variables`
(src/scenario_analyzer.py lines 230-258): the situation-derived variables
followed by the risk-derived ones, with the two-default fallback when
nothing matched. -/
def identify_key_variables (situation : String) (outcomes : List Outcome) :
    List String :=
  let all_risks := (outcomes.map (fun o => o.risk_factors)).flatten
  let vars := situationKeyVars situation ++ riskKeyVars all_risks
  if vars.isEmpty then ["Situational dynamics", "External factors"] else vars

/-- `setList` models Python's `list(set(xs))`: a duplicate-free list with
exactly the members of `xs`, in an unspecified order. -/
def SetListValid (setList : List String → List String) : Prop :=
  ∀ xs : List String, (setList xs).Nodup ∧ ∀ a, a ∈ setList xs ↔ a ∈ xs

/-- `ScenarioAnalyzer._generate_recommendations`
(src/scenario_analyzer.py lines 260-292).  `setList` stands for the
order-nondeterministic `list(set(...))` conversions. -/
def generate_recommendations (setList : List String → List String)
    (_situation : String) (outcomes : List Outcome) : List String :=
  let recommendations : List String := []
  let high_prob_outcomes := outcomes.filter (fun o => decide ((0.3 : ℚ) < o.probability))
  let recommendations := match high_prob_outcomes.head? with
    | some o => recommendations ++ ["Prepare primarily for: " ++ o.description]
    | none => recommendations
  let all_risks := (outcomes.map (fun o => o.risk_factors)).flatten
  let common_risks := (setList all_risks).take 3
  let recommendations := recommendations ++
    common_risks.map (fun risk => "Mitigate risk: " ++ risk)
  let all_opportunities := (outcomes.map (fun o => o.opportunities)).flatten
  let common_opportunities := (setList all_opportunities).take 2
  let recommendations := recommendations ++
    common_opportunities.map (fun opp => "Leverage opportunity: " ++ opp)
  recommendations ++ ["Monitor key variables closely",
    "Maintain flexibility for scenario pivots"]

/-- `ScenarioAnalyzer.analyze` (src/scenario_analyzer.py lines 78-109).
`client` is the abstracted OpenAI client (see module docstring), `setList`
the abstracted `list(set(...))`, `timestamp` the `datetime.now()` value. -/
def analyze (setList : List String → List String)
    (client : Option (Option (List Outcome)))
    (situation : String) (context : Option (List (String × String)))
    (timestamp : String) : ScenarioAnalysis :=
  let context_factors := extract_context_factors situation context
  let outcomes := generate_outcomes client situation context_factors
  let key_variables := identify_key_variables situation outcomes
  let recommendations := generate_recommendations setList situation outcomes
  ⟨situation, context_factors, outcomes, key_variables, recommendations, timestamp⟩

/-- `AnalysisRequest` (src/api_server.py lines 40-44).  The `context`
mapping is kept in iteration order; `api_key` present means an AI client is
constructed. -/
structure AnalysisRequest where
  situation : String
  context : Option (List (String × String))
  api_key : Option String
  model : String
deriving DecidableEq

/-- `OutcomeResponse` (src/api_server.py lines 46-53). -/
structure OutcomeResponse where
  description : String
  probability : ℚ
  impact_level : String
  risk_factors : List String
  opportunities : List String
  timeline : String
  confidence_score : ℚ
deriving DecidableEq

/-- `AnalysisResponse` (src/api_server.py lines 55-63). -/
structure AnalysisResponse where
  analysis_id : String
  situation : String
  context_factors : List String
  outcomes : List OutcomeResponse
  key_variables : List String
  recommendations : List String
  analysis_timestamp : String
  status : String
deriving DecidableEq

/-- `AnalysisStatus` (src/api_server.py lines 65-70). -/
structure AnalysisStatus where
  analysis_id : String
  status : String
  created_at : String
  completed_at : Option String
  error : Option String
deriving DecidableEq

/-- One record of the in-memory `analysis_store` dict
(src/api_server.py lines 154-162 fix its shape). -/
structure JobRecord where
  analysis_id : String
  status : String
  created_at : String
  request : AnalysisRequest
  analysis : Option ScenarioAnalysis
  completed_at : Option String
  error : Option String
deriving DecidableEq

/-- An `HTTPException` raised by a route: its `status_code` and `detail`. -/
structure HTTPErr where
  status_code : Nat
  detail : String
deriving DecidableEq

/-- The `analysis_store` dict, embedded as its list of records in key
insertion order (Python dicts preserve insertion order and the ids are
unique). -/
abbrev Store : Type := List JobRecord

/-- Dict read `analysis_store[id]` / membership `id in analysis_store`. -/
def lookupJob (store : Store) (id : String) : Option JobRecord :=
  List.find? (fun r => r.analysis_id == id) store

/-- Dict assignment `analysis_store[id] = record`: replaces an existing
record in place, otherwise appends at the end. -/
def storeSet (store : Store) (record : JobRecord) : Store :=
  if List.any store (fun r => r.analysis_id == record.analysis_id) then
    List.map (fun r => if r.analysis_id == record.analysis_id then record else r) store
  else
    store ++ [record]

/-- In-place mutation of the record stored under `id`
(`analysis_store[id]["f"] = v` / `analysis_store[id].update({...})`). -/
def storeUpdate (store : Store) (id : String) (f : JobRecord → JobRecord) : Store :=
  List.map (fun r => if r.analysis_id == id then f r else r) store

/-- `convert_outcome_to_response` (src/api_server.py lines 73-83). -/
def convert_outcome_to_response (outcome : Outcome) : OutcomeResponse :=
  ⟨outcome.description, outcome.probability, outcome.impact_level,
   outcome.risk_factors, outcome.opportunities, outcome.timeline,
   outcome.confidence_score⟩

/-- `convert_analysis_to_response` (src/api_server.py lines 85-96). -/
def convert_analysis_to_response (analysis : ScenarioAnalysis)
    (analysis_id : String) : AnalysisResponse :=
  ⟨analysis_id, analysis.situation, analysis.context_factors,
   analysis.outcomes.map convert_outcome_to_response,
   analysis.key_variables, analysis.recommendations,
   analysis.analysis_timestamp, "completed"⟩

/-- The record-creation step of `create_analysis`
(src/api_server.py lines 146-171): `uuid.uuid4()` and `datetime.now()`
are the `analysis_id` and `now` parameters; returns the new store and the
`AnalysisStatus` response body. -/
def create_analysis (store : Store) (analysis_id : String)
    (request : AnalysisRequest) (now : String) : Store × AnalysisStatus :=
  let record : JobRecord := ⟨analysis_id, "queued", now, request, none, none, none⟩
  (storeSet store record, ⟨analysis_id, "queued", now, none, none⟩)

/-- First store write of `perform_analysis` (src/api_server.py line 102):
`analysis_store[analysis_id]["status"] = "processing"`. -/
def setProcessing (store : Store) (analysis_id : String) : Store :=
  storeUpdate store analysis_id (fun r => { r with status := "processing" })

/-- Terminal store write of `perform_analysis`
(src/api_server.py lines 113-125): the `update({...})` in the success path
or in the `except` path.  `engineResult` is the outcome of
`analyzer.analyze(...)` — `Except.ok a` when it returned `a`,
`Except.error e` when it raised an exception whose `str()` is `e`; `t` is
the `datetime.now()` completion time. -/
def finishJob (store : Store) (analysis_id : String)
    (engineResult : Except String ScenarioAnalysis) (t : String) : Store :=
  match engineResult with
  | Except.ok a => storeUpdate store analysis_id
      (fun r => { r with status := "completed", analysis := some a, completed_at := some t })
  | Except.error e => storeUpdate store analysis_id
      (fun r => { r with status := "failed", error := some e, completed_at := some t })

/-- `perform_analysis` (src/api_server.py lines 98-125) as a total store
transformer: every engine exception is caught by the `except` clause, so
the background task always terminates in a store write and never re-raises
to the submitter. -/
def perform_analysis (store : Store) (analysis_id : String)
    (engineResult : Except String ScenarioAnalysis) (t : String) : Store :=
  finishJob (setProcessing store analysis_id) analysis_id engineResult t

/-- `get_analysis_result` (src/api_server.py lines 190-208). -/
def get_analysis_result (store : Store) (analysis_id : String) :
    Except HTTPErr AnalysisResponse :=
  match lookupJob store analysis_id with
  | none => Except.error ⟨404, "Analysis not found"⟩
  | some record =>
    if record.status != "completed" then
      Except.error ⟨400, "Analysis not completed. Status: " ++ record.status⟩
    else
      match record.analysis with
      | none => Except.error ⟨500, "Analysis data not available"⟩
      | some a => Except.ok (convert_analysis_to_response a analysis_id)

/-- `get_analysis_status` (src/api_server.py lines 173-188). -/
def get_analysis_status (store : Store) (analysis_id : String) :
    Except HTTPErr AnalysisStatus :=
  match lookupJob store analysis_id with
  | none => Except.error ⟨404, "Analysis not found"⟩
  | some record =>
    Except.ok ⟨analysis_id, record.status, record.created_at,
      record.completed_at, record.error⟩

/-- Sort key order of `list_analyses`: descending `created_at`
(`sort(key=lambda x: x["created_at"], reverse=True)`). -/
def createdAtGe (a b : JobRecord) : Prop := b.created_at ≤ a.created_at

instance : DecidableRel createdAtGe :=
  fun a b => inferInstanceAs (Decidable (b.created_at ≤ a.created_at))

instance : IsTotal JobRecord createdAtGe :=
  ⟨fun a b => le_total b.created_at a.created_at⟩

instance : IsTrans JobRecord createdAtGe :=
  ⟨fun _ _ _ hab hbc => le_trans hbc hab⟩

/-- `list_analyses` (src/api_server.py lines 231-256): filter by status if
given, sort by `created_at` descending, truncate to `limit`, render to
`AnalysisStatus` bodies.  The Python endpoint defaults `limit` to 10
(see `list_analyses_default`). -/
def list_analyses (store : Store) (limit : Nat) (status : Option String) :
    List AnalysisStatus :=
  let analyses : List JobRecord := store
  let analyses := match status with
    | some st => analyses.filter (fun a => a.status == st)
    | none => analyses
  let analyses := List.insertionSort createdAtGe analyses
  let analyses := analyses.take limit
  analyses.map (fun a =>
    ⟨a.analysis_id, a.status, a.created_at, a.completed_at, a.error⟩)

/-- `list_analyses` with its default arguments (`limit: int = 10`,
`status: Optional[str] = None`). -/
def list_analyses_default (store : Store) : List AnalysisStatus :=
  list_analyses store 10 none

/-- `delete_analysis` (src/api_server.py lines 258-267). -/
def delete_analysis (store : Store) (analysis_id : String) :
    Except HTTPErr Store :=
  match lookupJob store analysis_id with
  | none => Except.error ⟨404, "Analysis not found"⟩
  | some _ => Except.ok (store.filter (fun r => r.analysis_id != analysis_id))

/-- The five fixed keyword categories of context-factor extraction, with
their factor strings, in the fixed source order
(src/scenario_analyzer.py lines 116-125). -/
def factorCategories : List (List String × String) :=
  [(["business", "company", "startup"], "Business/Commercial context"),
   (["market", "economy", "financial"], "Economic factors"),
   (["team", "people", "employee"], "Human resources"),
   (["technology", "tech", "digital"], "Technology factors"),
   (["time", "deadline", "urgent"], "Time constraints")]

/-- Context-factor extraction restated the way the spec describes it
(spec §4.3(a)): one factor per matched category in fixed category order,
then the context pairs in iteration order, with a single default factor
exactly when nothing else was produced.  Compared against
`extract_context_factors` in claim C7. -/
def extract_context_factors_spec (situation : String)
    (context : List (String × String)) : List String :=
  let catFactors := (factorCategories.filter
    (fun c => occursAnyWord c.1 (lowerStr situation))).map (fun c => c.2)
  let ctxFactors := context.map (fun kv => kv.1 ++ ": " ++ kv.2)
  if (catFactors ++ ctxFactors).isEmpty then ["General situational context"]
  else catFactors ++ ctxFactors

/-- An out-of-range outcome payload the AI-backed strategy accepts:
`Outcome(**o)` validates only field names, so probability 2 and confidence
1.5 pass through unchanged. -/
def overflowOutcome : Outcome :=
  ⟨"Runaway success beyond all bounds", 2, "High",
   ["Overreach"], ["Windfall"], "Immediate", 1.5⟩

/-- The situation of the spec's end-to-end test property. -/
def demoSituation : String :=
  "I'm launching a startup with my team, market conditions are uncertain"

/-- The context mapping of the spec's end-to-end test property. -/
def demoContext : List (String × String) := [("industry", "Technology")]

/-- A reader's view of a job's status: the `status` field reported by
`get_analysis_status` (src/api_server.py lines 173-188), `none` when the
job id is absent. -/
def statusOf (store : Store) (analysis_id : String) : Option String :=
  (lookupJob store analysis_id).map (fun r => r.status)

/-- The statuses a reader observes after each of the three atomic store
writes in a job's lifetime: record creation (`create_analysis`), the
`processing` write and the terminal write of `perform_analysis`. -/
def jobStatusTrace (store : Store) (analysis_id : String)
    (request : AnalysisRequest) (now t : String)
    (engineResult : Except String ScenarioAnalysis) : List (Option String) :=
  let s0 := (create_analysis store analysis_id request now).1
  let s1 := setProcessing s0 analysis_id
  let s2 := finishJob s1 analysis_id engineResult t
  [statusOf s0 analysis_id, statusOf s1 analysis_id, statusOf s2 analysis_id]

/-- A sample request body, used to evaluate the job-lifecycle theorems. -/
def demoRequest : AnalysisRequest := ⟨"a situation", none, none, "gpt-4"⟩

/-- A freshly created job record (status queued). -/
def demoRecord : JobRecord :=
  ⟨"job-1", "queued", "2024-01-01T00:00:00", demoRequest, none, none, none⟩

/-- A corrupted record: completed but with no stored analysis. -/
def demoRecordStuck : JobRecord :=
  ⟨"job-2", "completed", "2024-01-01T00:00:01", demoRequest, none,
   some "2024-01-01T00:00:02", none⟩

/-- A concrete analysis value as produced by the engine without
credentials. -/
def demoAnalysisValue : ScenarioAnalysis :=
  analyze List.dedup none "a situation" none "2024-01-01T00:00:02"

/-- A successfully completed job record holding `demoAnalysisValue`. -/
def demoRecordDone : JobRecord :=
  ⟨"job-3", "completed", "2024-01-01T00:00:01", demoRequest,
   some demoAnalysisValue, some "2024-01-01T00:00:02", none⟩

/-- A record-field update that leaves `analysis_id` unchanged commutes with
looking the id up: the found record is just updated. -/
theorem lookupJob_storeUpdate (store : Store) (id : String)
    (f : JobRecord → JobRecord) (hf : ∀ r, (f r).analysis_id = r.analysis_id) :
    lookupJob (storeUpdate store id f) id = (lookupJob store id).map f := by
  induction store with
  | nil => rfl
  | cons r rest ih =>
    by_cases h : (r.analysis_id == id) = true
    · have hfr : ((f r).analysis_id == id) = true := by
        rw [beq_iff_eq] at h ⊢
        rw [hf r]
        exact h
      show List.find? _ (List.map _ (r :: rest)) = _
      rw [List.map_cons, if_pos h]
      rw [List.find?_cons_of_pos (p := fun x : JobRecord => x.analysis_id == id) _ hfr]
      show _ = Option.map f (List.find? _ (r :: rest))
      rw [List.find?_cons_of_pos (p := fun x : JobRecord => x.analysis_id == id) _ h]
      rfl
    · show List.find? _ (List.map _ (r :: rest)) = _
      rw [List.map_cons, if_neg h]
      rw [List.find?_cons_of_neg (p := fun x : JobRecord => x.analysis_id == id) _ h]
      show _ = Option.map f (List.find? _ (r :: rest))
      rw [List.find?_cons_of_neg (p := fun x : JobRecord => x.analysis_id == id) _ h]
      exact ih

/-- Inserting a record under a fresh id makes it visible to lookup. -/
theorem lookupJob_storeSet_fresh (store : Store) (record : JobRecord)
    (h : lookupJob store record.analysis_id = none) :
    lookupJob (storeSet store record) record.analysis_id = some record := by
  have hnone : ∀ r ∈ store, (r.analysis_id == record.analysis_id) = false := by
    intro r hr
    have := List.find?_eq_none.mp h r hr
    simpa using this
  have hany : List.any store (fun r => r.analysis_id == record.analysis_id) = false := by
    simp only [List.any_eq_false]
    intro r hr
    simp [hnone r hr]
  simp only [storeSet, hany, Bool.false_eq_true, if_false]
  simp only [lookupJob] at h ⊢
  rw [List.find?_append, h]
  simp [List.find?]

/-- The head of a filtered list is the first element satisfying the
predicate. -/
theorem head?_filter_eq_find? {α : Type} (p : α → Bool) (l : List α) :
    (l.filter p).head? = l.find? p := by
  induction l with
  | nil => rfl
  | cons a rest ih =>
    by_cases h : p a
    · simp [List.filter_cons, List.find?, h]
    · simp only [List.filter_cons, List.find?, Bool.not_eq_true] at *
      simp [h, ih]

/-- Every list is a prefix of itself under `isPrefixOf`. -/
theorem isPrefixOf_self (l : List Char) : l.isPrefixOf l = true := by
  induction l with
  | nil => rfl
  | cons c rest ih => simp [List.isPrefixOf, ih]

/-- A keyword is a substring of any character list that ends with it. -/
theorem containsSubChars_append (kw l : List Char) :
    containsSubChars kw (l ++ kw) = true := by
  induction l with
  | nil =>
    cases kw with
    | nil => rfl
    | cons c rest => simp [containsSubChars, isPrefixOf_self]
  | cons c rest ih =>
    simp [containsSubChars, ih]

/-- A string is a substring of any string that ends with it. -/
theorem containsSub_append (kw pre : String) :
    containsSub kw (pre ++ kw) = true := by
  have hdata : (pre ++ kw).data = pre.data ++ kw.data := by
    cases pre; cases kw; rfl
  simp only [containsSub, hdata]
  exact containsSubChars_append kw.data pre.data

/-- Appending commutes with taking the underlying character list. -/
theorem string_data_append (a b : String) : (a ++ b).data = a.data ++ b.data := rfl

/-- Appending a fixed string on the left is injective. -/
theorem string_append_left_cancel {s a b : String} (h : s ++ a = s ++ b) : a = b := by
  have hd : s.data ++ a.data = s.data ++ b.data := by
    rw [← string_data_append, ← string_data_append, h]
  cases a
  cases b
  simp only [List.append_cancel_left_eq] at hd
  exact congrArg String.mk hd

/-- `List.dedup` is one valid realization of Python's `list(set(xs))`. -/
theorem dedup_valid : SetListValid List.dedup :=
  fun xs => ⟨List.nodup_dedup xs, fun _ => List.mem_dedup⟩

/-- Unfolding `generate_recommendations`: a prepare entry driven by the
first outcome with probability above 0.3, then the first 3 de-duplicated
pooled risks, then the first 2 de-duplicated pooled opportunities, then
the two fixed closing recommendations. -/
theorem generate_recommendations_shape (setList : List String → List String)
    (situation : String) (outcomes : List Outcome) :
    generate_recommendations setList situation outcomes =
      ((match outcomes.find? (fun o => decide ((0.3 : ℚ) < o.probability)) with
        | some o => ["Prepare primarily for: " ++ o.description]
        | none => []) ++
      ((setList ((outcomes.map (fun o => o.risk_factors)).flatten)).take 3).map
        (fun risk => "Mitigate risk: " ++ risk) ++
      ((setList ((outcomes.map (fun o => o.opportunities)).flatten)).take 2).map
        (fun opp => "Leverage opportunity: " ++ opp)) ++
      ["Monitor key variables closely", "Maintain flexibility for scenario pivots"] := by
  have hh := head?_filter_eq_find? (fun o => decide ((0.3 : ℚ) < o.probability)) outcomes
  simp only [generate_recommendations, hh]
  cases outcomes.find? (fun o => decide ((0.3 : ℚ) < o.probability)) with
  | none => simp
  | some o => simp

/-- The incremental if-chain of the source equals filtering the fixed
category table and keeping each matched category's factor string. -/
theorem categoryFactors_eq_filter (situation : String) :
    categoryFactors situation =
      (factorCategories.filter (fun c => occursAnyWord c.1 (lowerStr situation))).map
        (fun c => c.2) := by
  by_cases h1 : occursAnyWord ["business", "company", "startup"] (lowerStr situation) = true <;>
    by_cases h2 : occursAnyWord ["market", "economy", "financial"] (lowerStr situation) = true <;>
      by_cases h3 : occursAnyWord ["team", "people", "employee"] (lowerStr situation) = true <;>
        by_cases h4 : occursAnyWord ["technology", "tech", "digital"] (lowerStr situation) = true <;>
          by_cases h5 : occursAnyWord ["time", "deadline", "urgent"] (lowerStr situation) = true <;>
            simp [categoryFactors, factorCategories, List.filter_cons, h1, h2, h3, h4, h5]

/-- Claim C7: for every situation text and optional context mapping,
context-factor extraction agrees with the spec-shaped restatement
`extract_context_factors_spec`: one fixed factor string per
whole-word-matched category in the fixed category order, then one
"key: value" string per context pair in iteration order, and the single
default factor exactly when nothing else was produced (an absent mapping
behaves like an empty one). -/
theorem extract_context_factors_matches_spec (situation : String)
    (ctx : List (String × String)) :
    extract_context_factors situation (some ctx) =
      extract_context_factors_spec situation ctx ∧
    extract_context_factors situation none =
      extract_context_factors_spec situation [] := by
  have hcat := categoryFactors_eq_filter situation
  constructor
  · simp only [extract_context_factors, extract_context_factors_spec, hcat]
  · simp only [extract_context_factors, extract_context_factors_spec, hcat,
      List.map_nil, List.append_nil]

/-- Claim C3: for every situation and context-factor list, the rule-based
strategy returns exactly 4 outcomes in the fixed order optimal, expected,
challenging, adverse, with probabilities [0.25, 0.45, 0.25, 0.05] summing
to exactly 1, impact levels High, Medium, Medium, High, and confidence
scores 0.70, 0.85, 0.75, 0.60.  The strategy is a total function, so it
never fails. -/
theorem rule_based_canonical (situation : String) (context_factors : List String) :
    (rule_based_outcomes situation context_factors).length = 4 ∧
    (rule_based_outcomes situation context_factors).map (fun o => o.description) =
      ["Optimal outcome - all factors align favorably",
       "Expected outcome - moderate success with some challenges",
       "Difficult outcome - significant obstacles encountered",
       "Adverse outcome - multiple failures compound"] ∧
    (rule_based_outcomes situation context_factors).map (fun o => o.probability) =
      [0.25, 0.45, 0.25, 0.05] ∧
    ((rule_based_outcomes situation context_factors).map (fun o => o.probability)).sum = 1 ∧
    (rule_based_outcomes situation context_factors).map (fun o => o.impact_level) =
      ["High", "Medium", "Medium", "High"] ∧
    (rule_based_outcomes situation context_factors).map (fun o => o.confidence_score) =
      [0.7, 0.85, 0.75, 0.6] := by
  refine ⟨rfl, rfl, rfl, ?_, rfl, rfl⟩
  simp only [rule_based_outcomes, List.map_cons, List.map_nil, List.sum_cons,
    List.sum_nil]
  norm_num [optimalOutcome, expectedOutcome, challengingOutcome, adverseOutcome]

/-- Claim C10: whenever the rule-based strategy supplies the outcomes, the
identified key variables are the situation-derived ones followed by
"Resource management", "Execution capability" and "External environment"
(the canonical risk factors contain resource-, execution- and
external-related text), so all three are always present and the
two-default-variable branch is never taken, for every situation text. -/
theorem rule_based_key_variables (situation : String) (context_factors : List String) :
    ∃ sitVars,
      identify_key_variables situation (rule_based_outcomes situation context_factors) =
        sitVars ++ ["Resource management", "Execution capability", "External environment"] ∧
      "Resource management" ∈
        identify_key_variables situation (rule_based_outcomes situation context_factors) ∧
      "Execution capability" ∈
        identify_key_variables situation (rule_based_outcomes situation context_factors) ∧
      "External environment" ∈
        identify_key_variables situation (rule_based_outcomes situation context_factors) ∧
      identify_key_variables situation (rule_based_outcomes situation context_factors) ≠
        ["Situational dynamics", "External factors"] := by
  have hrisk : riskKeyVars (((rule_based_outcomes situation context_factors).map
      (fun o => o.risk_factors)).flatten) =
      ["Resource management", "Execution capability", "External environment"] := by
    simp only [rule_based_outcomes]
    rfl
  have hmain : identify_key_variables situation
      (rule_based_outcomes situation context_factors) =
      situationKeyVars situation ++
        ["Resource management", "Execution capability", "External environment"] := by
    simp only [identify_key_variables, hrisk]
    rw [if_neg]
    simp [List.isEmpty_eq_false]
  refine ⟨situationKeyVars situation, hmain, ?_, ?_, ?_, ?_⟩
  · rw [hmain]; simp
  · rw [hmain]; simp
  · rw [hmain]; simp
  · rw [hmain]
    intro h
    have hm : "Resource management" ∈
        situationKeyVars situation ++
          ["Resource management", "Execution capability", "External environment"] := by
      simp
    rw [h] at hm
    simp at hm

/-- Claim C8: for every outcome list, recommendation synthesis produces, in
order: one "prepare primarily for" entry driven by the first outcome in
generation order with probability > 0.3 (omitted when none qualifies), then
up to 3 "mitigate risk" entries from the de-duplicated pooled risk factors,
then up to 2 "leverage opportunity" entries from the de-duplicated pooled
opportunities, and always ends with the two fixed closing recommendations,
regardless of input. -/
theorem recommendations_structure (setList : List String → List String)
    (hf : SetListValid setList) (situation : String) (outcomes : List Outcome) :
    ∃ mitigations leverages,
      generate_recommendations setList situation outcomes =
        ((match outcomes.find? (fun o => decide ((0.3 : ℚ) < o.probability)) with
          | some o => ["Prepare primarily for: " ++ o.description]
          | none => []) ++ mitigations ++ leverages) ++
        ["Monitor key variables closely", "Maintain flexibility for scenario pivots"] ∧
      mitigations.length ≤ 3 ∧ leverages.length ≤ 2 ∧
      mitigations.Nodup ∧ leverages.Nodup ∧
      (∀ m ∈ mitigations, ∃ risk,
        risk ∈ (outcomes.map (fun o => o.risk_factors)).flatten ∧
        m = "Mitigate risk: " ++ risk) ∧
      (∀ lv ∈ leverages, ∃ opp,
        opp ∈ (outcomes.map (fun o => o.opportunities)).flatten ∧
        lv = "Leverage opportunity: " ++ opp) := by
  have hinj : ∀ p : String, Function.Injective (fun t => p ++ t) :=
    fun p a b h => string_append_left_cancel h
  refine ⟨((setList ((outcomes.map (fun o => o.risk_factors)).flatten)).take 3).map
      (fun risk => "Mitigate risk: " ++ risk),
    ((setList ((outcomes.map (fun o => o.opportunities)).flatten)).take 2).map
      (fun opp => "Leverage opportunity: " ++ opp),
    generate_recommendations_shape setList situation outcomes, ?_, ?_, ?_, ?_, ?_, ?_⟩
  · simp only [List.length_map, List.length_take]
    exact Nat.min_le_left 3 _
  · simp only [List.length_map, List.length_take]
    exact Nat.min_le_left 2 _
  · exact (((List.take_sublist 3 _).nodup (hf _).1)).map (hinj _)
  · exact (((List.take_sublist 2 _).nodup (hf _).1)).map (hinj _)
  · intro m hm
    obtain ⟨risk, hr, rfl⟩ := List.mem_map.mp hm
    exact ⟨risk, ((hf _).2 risk).mp (List.take_subset _ _ hr), rfl⟩
  · intro lv hl
    obtain ⟨opp, ho, rfl⟩ := List.mem_map.mp hl
    exact ⟨opp, ((hf _).2 opp).mp (List.take_subset _ _ ho), rfl⟩

/-- Counterexample to claim C2 as stated: a structured payload accepted by
the AI-backed strategy (client present, parse successful) yields an outcome
with probability 2 > 1 and confidence 1.5 > 1 in the returned analysis. -/
theorem ai_payload_out_of_range :
    (analyze List.dedup (some (some [overflowOutcome]))
      "any situation" none "t").outcomes = [overflowOutcome] ∧
    ¬(overflowOutcome.probability ≤ 1) ∧
    ¬(overflowOutcome.confidence_score ≤ 1) := by
  refine ⟨rfl, ?_, ?_⟩
  · simp only [overflowOutcome]
    norm_num
  · simp only [overflowOutcome]
    norm_num

/-- Claim C2 as amended: whenever the outcomes come from the rule-based
strategy — no credentials (`client = none`) or an AI attempt that failed
(`client = some none`) — every outcome's probability and confidence score
lie in [0, 1].  The AI-backed strategy performs no range validation, so a
successfully parsed payload is returned as-is (see
`ai_payload_out_of_range`). -/
theorem outcomes_bounded_without_ai_payload (setList : List String → List String)
    (client : Option (Option (List Outcome))) (situation : String)
    (context : Option (List (String × String))) (ts : String)
    (h : client = none ∨ client = some none) :
    ∀ o ∈ (analyze setList client situation context ts).outcomes,
      0 ≤ o.probability ∧ o.probability ≤ 1 ∧
      0 ≤ o.confidence_score ∧ o.confidence_score ≤ 1 := by
  have houtcomes : (analyze setList client situation context ts).outcomes =
      [optimalOutcome, expectedOutcome, challengingOutcome, adverseOutcome] := by
    rcases h with h | h <;> subst h <;> rfl
  rw [houtcomes]
  intro o ho
  fin_cases ho <;>
    norm_num [optimalOutcome, expectedOutcome, challengingOutcome, adverseOutcome]

/-- Concrete evaluation of `outcomes_bounded_without_ai_payload` with no
credentials supplied. -/
theorem outcomes_bounded_witness :
    ((none : Option (Option (List Outcome))) = none ∨
      (none : Option (Option (List Outcome))) = some none) ∧
    ∀ o ∈ (analyze List.dedup none "x" none "t").outcomes,
      0 ≤ o.probability ∧ o.probability ≤ 1 ∧
      0 ≤ o.confidence_score ∧ o.confidence_score ≤ 1 :=
  ⟨Or.inl rfl,
   outcomes_bounded_without_ai_payload List.dedup none "x" none "t" (Or.inl rfl)⟩

/-- The rule-based outcome list's first outcome with probability above 0.3
is the expected bucket (0.25 fails, 0.45 succeeds). -/
theorem find_high_prob_canonical (situation : String) (context_factors : List String) :
    (rule_based_outcomes situation context_factors).find?
      (fun o => decide ((0.3 : ℚ) < o.probability)) = some expectedOutcome := by
  have h1 : ¬((fun o : Outcome => decide ((0.3 : ℚ) < o.probability)) optimalOutcome = true) := by
    simp only [optimalOutcome, decide_eq_true_eq]
    norm_num
  have h2 : (fun o : Outcome => decide ((0.3 : ℚ) < o.probability)) expectedOutcome = true := by
    simp only [expectedOutcome, decide_eq_true_eq]
    norm_num
  simp only [rule_based_outcomes]
  rw [List.find?_cons_of_neg (p := fun o : Outcome => decide ((0.3 : ℚ) < o.probability)) _ h1,
    List.find?_cons_of_pos (p := fun o : Outcome => decide ((0.3 : ℚ) < o.probability)) _ h2]

/-- Counterexample to claim C1 as stated: on the end-to-end input the
returned context factors do not include "Technology factors" — the
situation text contains no technology/tech/digital keyword, and the
context entry contributes "industry: Technology" instead.  The factors
actually returned are listed in the second conjunct. -/
theorem demo_technology_factor_absent :
    "Technology factors" ∉
      (analyze List.dedup none demoSituation (some demoContext) "t").context_factors ∧
    (analyze List.dedup none demoSituation (some demoContext) "t").context_factors =
      ["Business/Commercial context", "Economic factors", "Human resources",
       "industry: Technology"] := by
  constructor
  · decide
  · decide

/-- Claim C1 as amended: with the end-to-end situation, context
{"industry": "Technology"} and no credentials, the returned analysis's
context factors include "Business/Commercial context", "Economic factors",
"Human resources" and "industry: Technology" (but not "Technology
factors", see `demo_technology_factor_absent`); the outcomes are the
canonical 4-bucket rule-based set; the key variables are non-empty and
include the team-related entry; and the recommendations have at least 3
entries and end with the two fixed closing recommendations. -/
theorem demo_analysis_end_to_end (setList : List String → List String)
    (ts : String) :
    "Business/Commercial context" ∈
      (analyze setList none demoSituation (some demoContext) ts).context_factors ∧
    "Economic factors" ∈
      (analyze setList none demoSituation (some demoContext) ts).context_factors ∧
    "Human resources" ∈
      (analyze setList none demoSituation (some demoContext) ts).context_factors ∧
    "industry: Technology" ∈
      (analyze setList none demoSituation (some demoContext) ts).context_factors ∧
    (analyze setList none demoSituation (some demoContext) ts).outcomes =
      [optimalOutcome, expectedOutcome, challengingOutcome, adverseOutcome] ∧
    (analyze setList none demoSituation (some demoContext) ts).key_variables ≠ [] ∧
    "Team performance and dynamics" ∈
      (analyze setList none demoSituation (some demoContext) ts).key_variables ∧
    3 ≤ (analyze setList none demoSituation (some demoContext) ts).recommendations.length ∧
    ∃ pre, (analyze setList none demoSituation (some demoContext) ts).recommendations =
      pre ++ ["Monitor key variables closely", "Maintain flexibility for scenario pivots"] := by
  have hcf : (analyze setList none demoSituation (some demoContext) ts).context_factors =
      extract_context_factors demoSituation (some demoContext) := rfl
  have hkv : (analyze setList none demoSituation (some demoContext) ts).key_variables =
      identify_key_variables demoSituation
        (rule_based_outcomes demoSituation
          (extract_context_factors demoSituation (some demoContext))) := rfl
  have hrec : (analyze setList none demoSituation (some demoContext) ts).recommendations =
      generate_recommendations setList demoSituation
        (rule_based_outcomes demoSituation
          (extract_context_factors demoSituation (some demoContext))) := rfl
  refine ⟨?_, ?_, ?_, ?_, rfl, ?_, ?_, ?_, ?_⟩
  · rw [hcf]; decide
  · rw [hcf]; decide
  · rw [hcf]; decide
  · rw [hcf]; decide
  · rw [hkv]; decide
  · rw [hkv]; decide
  · rw [hrec, generate_recommendations_shape, find_high_prob_canonical]
    simp only [List.length_append, List.length_map, List.length_cons,
      List.length_nil, List.length_take]
    omega
  · rw [hrec, generate_recommendations_shape]
    exact ⟨_, rfl⟩

/-- Concrete evaluation of `recommendations_structure` at `List.dedup` and
an empty outcome list. -/
theorem recommendations_structure_witness :
    SetListValid List.dedup ∧
    ∃ mitigations leverages,
      generate_recommendations List.dedup "x" [] =
        ((match ([] : List Outcome).find? (fun o => decide ((0.3 : ℚ) < o.probability)) with
          | some o => ["Prepare primarily for: " ++ o.description]
          | none => []) ++ mitigations ++ leverages) ++
        ["Monitor key variables closely", "Maintain flexibility for scenario pivots"] ∧
      mitigations.length ≤ 3 ∧ leverages.length ≤ 2 ∧
      mitigations.Nodup ∧ leverages.Nodup ∧
      (∀ m ∈ mitigations, ∃ risk,
        risk ∈ (([] : List Outcome).map (fun o => o.risk_factors)).flatten ∧
        m = "Mitigate risk: " ++ risk) ∧
      (∀ lv ∈ leverages, ∃ opp,
        opp ∈ (([] : List Outcome).map (fun o => o.opportunities)).flatten ∧
        lv = "Leverage opportunity: " ++ opp) :=
  ⟨dedup_valid, recommendations_structure List.dedup dedup_valid "x" []⟩

/-- Claim C4: for every submitted job present in the store, background
execution on an engine failure transitions the record to status failed
with the exception text stored as the error and a completion time set; on
engine success it transitions the record to status completed with the
result and a completion time set.  `perform_analysis` is a total store
transformer — the `except` clause captures every engine failure, so
nothing is re-raised to the submitter. -/
theorem perform_analysis_terminal (store : Store) (analysis_id t : String)
    (r : JobRecord) (h : lookupJob store analysis_id = some r)
    (engineResult : Except String ScenarioAnalysis) :
    ∃ r', lookupJob (perform_analysis store analysis_id engineResult t) analysis_id =
        some r' ∧
      r'.completed_at = some t ∧
      (∀ e, engineResult = Except.error e →
        r'.status = "failed" ∧ r'.error = some e) ∧
      (∀ a, engineResult = Except.ok a →
        r'.status = "completed" ∧ r'.analysis = some a) := by
  have hstep1 : lookupJob (setProcessing store analysis_id) analysis_id =
      some { r with status := "processing" } := by
    unfold setProcessing
    rw [lookupJob_storeUpdate store analysis_id
      (fun rec => { rec with status := "processing" }) (fun _ => rfl), h]
    rfl
  cases engineResult with
  | ok a =>
    have hstep2 : lookupJob (perform_analysis store analysis_id (Except.ok a) t)
        analysis_id =
        some { r with status := "completed", analysis := some a, completed_at := some t } := by
      unfold perform_analysis finishJob
      rw [lookupJob_storeUpdate _ analysis_id
        (fun rec => { rec with status := "completed", analysis := some a, completed_at := some t }) (fun _ => rfl), hstep1]
      rfl
    refine ⟨_, hstep2, rfl, ?_, ?_⟩
    · intro e he
      exact Except.noConfusion he
    · intro a' ha
      injection ha with hv
      subst hv
      exact ⟨rfl, rfl⟩
  | error e =>
    have hstep2 : lookupJob (perform_analysis store analysis_id (Except.error e) t)
        analysis_id =
        some { r with status := "failed", error := some e, completed_at := some t } := by
      unfold perform_analysis finishJob
      rw [lookupJob_storeUpdate _ analysis_id
        (fun rec => { rec with status := "failed", error := some e, completed_at := some t }) (fun _ => rfl), hstep1]
      rfl
    refine ⟨_, hstep2, rfl, ?_, ?_⟩
    · intro e' he
      injection he with hv
      subst hv
      exact ⟨rfl, rfl⟩
    · intro a ha
      exact Except.noConfusion ha

/-- Concrete evaluation of `perform_analysis_terminal` on a one-record
store with a failing engine run. -/
theorem perform_analysis_terminal_witness :
    lookupJob [demoRecord] "job-1" = some demoRecord ∧
    ∃ r', lookupJob (perform_analysis [demoRecord] "job-1"
        (Except.error "connection refused") "t2") "job-1" = some r' ∧
      r'.completed_at = some "t2" ∧
      (∀ e, (Except.error "connection refused" :
          Except String ScenarioAnalysis) = Except.error e →
        r'.status = "failed" ∧ r'.error = some e) ∧
      (∀ a, (Except.error "connection refused" :
          Except String ScenarioAnalysis) = Except.ok a →
        r'.status = "completed" ∧ r'.analysis = some a) :=
  ⟨rfl, perform_analysis_terminal [demoRecord] "job-1" "t2" demoRecord rfl
    (Except.error "connection refused")⟩

/-- Claim C6: for a fresh job id, the statuses visible to readers after
each atomic store write of the job's lifetime are exactly
queued, processing, completed (engine success) or
queued, processing, failed (engine failure) — so any observed status
sequence is a prefix (with stuttering) of one of these two chains, no
write moves the status backwards, and no write leaves a terminal state. -/
theorem job_status_never_regresses (store : Store) (analysis_id : String)
    (request : AnalysisRequest) (now t : String)
    (engineResult : Except String ScenarioAnalysis)
    (hfresh : lookupJob store analysis_id = none) :
    (∀ a, engineResult = Except.ok a →
      jobStatusTrace store analysis_id request now t engineResult =
        [some "queued", some "processing", some "completed"]) ∧
    (∀ e, engineResult = Except.error e →
      jobStatusTrace store analysis_id request now t engineResult =
        [some "queued", some "processing", some "failed"]) := by
  have h0 : lookupJob (create_analysis store analysis_id request now).1 analysis_id =
      some ⟨analysis_id, "queued", now, request, none, none, none⟩ := by
    unfold create_analysis
    exact lookupJob_storeSet_fresh store _ hfresh
  have h1 : lookupJob (setProcessing
      (create_analysis store analysis_id request now).1 analysis_id) analysis_id =
      some ⟨analysis_id, "processing", now, request, none, none, none⟩ := by
    unfold setProcessing
    rw [lookupJob_storeUpdate _ analysis_id
      (fun rec => { rec with status := "processing" }) (fun _ => rfl), h0]
    rfl
  constructor
  · intro a ha
    subst ha
    have h2 : lookupJob (finishJob (setProcessing
        (create_analysis store analysis_id request now).1 analysis_id) analysis_id
        (Except.ok a) t) analysis_id =
        some ⟨analysis_id, "completed", now, request, some a, some t, none⟩ := by
      unfold finishJob
      rw [lookupJob_storeUpdate _ analysis_id
        (fun rec => { rec with status := "completed", analysis := some a, completed_at := some t }) (fun _ => rfl), h1]
      rfl
    simp only [jobStatusTrace, statusOf]
    rw [h0, h1, h2]
    rfl
  · intro e he
    subst he
    have h2 : lookupJob (finishJob (setProcessing
        (create_analysis store analysis_id request now).1 analysis_id) analysis_id
        (Except.error e) t) analysis_id =
        some ⟨analysis_id, "failed", now, request, none, some t, some e⟩ := by
      unfold finishJob
      rw [lookupJob_storeUpdate _ analysis_id
        (fun rec => { rec with status := "failed", error := some e, completed_at := some t }) (fun _ => rfl), h1]
      rfl
    simp only [jobStatusTrace, statusOf]
    rw [h0, h1, h2]
    rfl

/-- Concrete evaluation of `job_status_never_regresses`: a failing engine
run on an empty store. -/
theorem job_status_never_regresses_witness :
    lookupJob [] "job-9" = none ∧
    jobStatusTrace [] "job-9" demoRequest "t0" "t1" (Except.error "provider down") =
      [some "queued", some "processing", some "failed"] :=
  ⟨rfl, (job_status_never_regresses [] "job-9" demoRequest "t0" "t1"
    (Except.error "provider down") rfl).2 "provider down" rfl⟩

/-- Claim C5: GetResult fails with a 404 "not found" error when the job id
is unknown, with a 400 "invalid state" error whose message includes the
current status when the job is not completed, with a 500 "internal
inconsistency" error when the job is completed but stores no result, and
otherwise returns the stored analysis (converted field-for-field); the
three error kinds carry pairwise distinct status codes, so they are
distinguishable at the boundary. -/
theorem get_result_error_taxonomy (store : Store) (analysis_id : String) :
    (lookupJob store analysis_id = none →
      get_analysis_result store analysis_id =
        Except.error ⟨404, "Analysis not found"⟩) ∧
    (∀ r, lookupJob store analysis_id = some r → r.status ≠ "completed" →
      get_analysis_result store analysis_id =
        Except.error ⟨400, "Analysis not completed. Status: " ++ r.status⟩ ∧
      containsSub r.status ("Analysis not completed. Status: " ++ r.status) = true) ∧
    (∀ r, lookupJob store analysis_id = some r → r.status = "completed" →
      r.analysis = none →
      get_analysis_result store analysis_id =
        Except.error ⟨500, "Analysis data not available"⟩) ∧
    (∀ r a, lookupJob store analysis_id = some r → r.status = "completed" →
      r.analysis = some a →
      get_analysis_result store analysis_id =
        Except.ok (convert_analysis_to_response a analysis_id) ∧
      (convert_analysis_to_response a analysis_id).situation = a.situation ∧
      (convert_analysis_to_response a analysis_id).recommendations =
        a.recommendations ∧
      (convert_analysis_to_response a analysis_id).outcomes =
        a.outcomes.map convert_outcome_to_response) ∧
    ((404 : Nat) ≠ 400 ∧ (404 : Nat) ≠ 500 ∧ (400 : Nat) ≠ 500) := by
  refine ⟨?_, ?_, ?_, ?_, by norm_num⟩
  · intro hnone
    simp [get_analysis_result, hnone]
  · intro r hr hst
    have hb : (r.status != "completed") = true := by
      simp [bne_iff_ne, hst]
    refine ⟨?_, containsSub_append r.status "Analysis not completed. Status: "⟩
    simp [get_analysis_result, hr, hb]
  · intro r hr hst han
    have hb : (r.status != "completed") = false := by
      simp [bne_iff_ne, hst]
    simp [get_analysis_result, hr, hb, han]
  · intro r a hr hst han
    have hb : (r.status != "completed") = false := by
      simp [bne_iff_ne, hst]
    refine ⟨?_, rfl, rfl, rfl⟩
    simp [get_analysis_result, hr, hb, han]

/-- Concrete evaluation of `get_result_error_taxonomy` on all four
branches: unknown id, queued job, corrupted completed job, and a completed
job holding a stored analysis. -/
theorem get_result_error_taxonomy_witness :
    get_analysis_result [] "missing" = Except.error ⟨404, "Analysis not found"⟩ ∧
    (get_analysis_result [demoRecord] "job-1" =
        Except.error ⟨400, "Analysis not completed. Status: " ++ demoRecord.status⟩ ∧
      containsSub demoRecord.status
        ("Analysis not completed. Status: " ++ demoRecord.status) = true) ∧
    get_analysis_result [demoRecordStuck] "job-2" =
      Except.error ⟨500, "Analysis data not available"⟩ ∧
    get_analysis_result [demoRecordDone] "job-3" =
      Except.ok (convert_analysis_to_response demoAnalysisValue "job-3") :=
  ⟨(get_result_error_taxonomy [] "missing").1 rfl,
   (get_result_error_taxonomy [demoRecord] "job-1").2.1 demoRecord rfl (by decide),
   (get_result_error_taxonomy [demoRecordStuck] "job-2").2.2.1 demoRecordStuck rfl
     rfl rfl,
   ((get_result_error_taxonomy [demoRecordDone] "job-3").2.2.2.1 demoRecordDone
     demoAnalysisValue rfl rfl rfl).1⟩

/-- Claim C9: for every store state, ListAnalyses returns at most `limit`
records, each matching the status filter when one is given, ordered by
`created_at` descending (newest-created first); the endpoint's default
arguments are limit 10 and no filter. -/
theorem list_analyses_spec (store : Store) (limit : Nat) (status : Option String) :
    (list_analyses store limit status).length ≤ limit ∧
    (∀ st, status = some st →
      ∀ a ∈ list_analyses store limit status, a.status = st) ∧
    (list_analyses store limit status).Pairwise
      (fun a b => b.created_at ≤ a.created_at) ∧
    list_analyses_default store = list_analyses store 10 none := by
  refine ⟨?_, ?_, ?_, rfl⟩
  · cases status <;>
      · simp only [list_analyses, List.length_map, List.length_take]
        exact Nat.min_le_left _ _
  · intro st hst a ha
    subst hst
    simp only [list_analyses] at ha
    obtain ⟨rec, hrec, rfl⟩ := List.mem_map.mp ha
    have hmem : rec ∈ List.insertionSort createdAtGe
        (store.filter (fun x => x.status == st)) :=
      List.take_subset _ _ hrec
    have hmem2 : rec ∈ store.filter (fun x => x.status == st) :=
      (List.perm_insertionSort createdAtGe _).subset hmem
    have := (List.mem_filter.mp hmem2).2
    exact eq_of_beq this
  · cases status with
    | none =>
      simp only [list_analyses]
      rw [List.pairwise_map]
      exact List.Pairwise.sublist (List.take_sublist limit _)
        (List.sorted_insertionSort createdAtGe store)
    | some st =>
      simp only [list_analyses]
      rw [List.pairwise_map]
      exact List.Pairwise.sublist (List.take_sublist limit _)
        (List.sorted_insertionSort createdAtGe _)

/-- Concrete evaluation of `list_analyses_spec` on a one-record store with
a status filter. -/
theorem list_analyses_spec_witness :
    (list_analyses [demoRecord] 2 (some "queued")).length ≤ 2 ∧
    ∀ a ∈ list_analyses [demoRecord] 2 (some "queued"), a.status = "queued" :=
  ⟨(list_analyses_spec [demoRecord] 2 (some "queued")).1,
   (list_analyses_spec [demoRecord] 2 (some "queued")).2.1 "queued" rfl⟩
